import Mathlib

/-!
Shallow embedding of the decision layer of the hiki-torii firmware
(src/src/main.cpp): the ad hoc JSON field extractors, the MQTT message
ingestor (`mqttCallback`), the navigation state machine and the
refresh-mode policy (`transitionTo`, `loop`).

C strings are modelled as `List Char` (the NUL terminator is the end of
the list); `unsigned long` millisecond arithmetic is modelled on `Nat`
with explicit wraparound modulo 2^32 where the source subtracts
timestamps; C `int` fields are modelled as `Int` (payloads are at most
511 bytes, far from any 32-bit overflow).
-/

-- ── C string helpers ──────────────────────────────────────────────

/-- Does the first list occur at the very start of the second?  This is
the prefix test `strstr` performs at each candidate offset. -/
def listStarts : List Char → List Char → Bool
  | [], _ => true
  | _ :: _, [] => false
  | a :: as, b :: bs => a == b && listStarts as bs

/-- C `strstr`: the suffix of the haystack beginning at the first
occurrence of `needle`, or `none`.  (For an empty needle, `strstr`
returns the haystack itself.) -/
def strstr (needle : List Char) : List Char → Option (List Char)
  | [] => if listStarts needle [] = true then some [] else none
  | c :: rest =>
      if listStarts needle (c :: rest) = true then some (c :: rest)
      else strstr needle rest

/-- C `isspace` on the default locale, as used by `atoi`. -/
def isSpaceChar (c : Char) : Bool :=
  c == ' ' || c == '\t' || c == '\n' || c.toNat == 11 || c.toNat == 12 || c == '\r'

/-- Digit-accumulation loop of C `atoi`: consume leading decimal digits,
stop at the first non-digit. -/
def atoiDigits : List Char → Nat → Nat
  | [], acc => acc
  | c :: rest, acc =>
      if c.isDigit then atoiDigits rest (acc * 10 + (c.toNat - 48)) else acc

/-- C `atoi`: skip whitespace, optional sign, then decimal digits;
returns 0 when no digit follows. -/
def atoi (s : List Char) : Int :=
  match s.dropWhile isSpaceChar with
  | '-' :: rest => - (atoiDigits rest 0 : Int)
  | '+' :: rest => (atoiDigits rest 0 : Int)
  | rest => (atoiDigits rest 0 : Int)

-- ── JSON field extractors (main.cpp lines 113-147) ────────────────

/-- The search pattern `"<key>":` built by `snprintf` in each extractor. -/
def searchKey (key : List Char) : List Char :=
  '"' :: key ++ ['"', ':']

/-- `jsonInt` (main.cpp:113): locate `"key":`, then `atoi` the rest;
0 when the key is absent or the value is non-numeric. -/
def jsonInt (json key : List Char) : Int :=
  match strstr (searchKey key) json with
  | none => 0
  | some p => atoi (p.drop (searchKey key).length)

/-- `jsonStr` (main.cpp:122): locate `"key":`, skip spaces, require an
opening quote, copy up to the closing quote truncated to `out_sz - 1`
characters.  Every failure path writes the empty string into `out`. -/
def jsonStr (json key : List Char) (out_sz : Nat) : List Char :=
  match strstr (searchKey key) json with
  | none => []
  | some p =>
      match (p.drop (searchKey key).length).dropWhile (fun c => c == ' ') with
      | '"' :: q =>
          if q.any (fun c => c == '"') then
            (q.takeWhile (fun c => !(c == '"'))).take (out_sz - 1)
          else []
      | _ => []

/-- The literal `true` recognised by `jsonBool` via `strncmp(p,"true",4)`. -/
def trueLit : List Char := ('t' :: 'r' :: 'u' :: 'e' :: [])

/-- `jsonBool` (main.cpp:139): locate `"key":`, skip spaces, test for the
literal `true`; false when the key is absent. -/
def jsonBool (json key : List Char) : Bool :=
  match strstr (searchKey key) json with
  | none => false
  | some p =>
      listStarts trueLit ((p.drop (searchKey key).length).dropWhile (fun c => c == ' '))

-- ── State structs (main.cpp lines 34-85) ──────────────────────────

/-- `enum Screen` (main.cpp:34). -/
inductive Screen
  | HOME
  | ISOLATED
  | ISOLATED_HOME
  | DETAIL_BREATH
  | DETAIL_NERVE
deriving DecidableEq

/-- The two e-ink refresh modes chosen by `transitionTo`. -/
inductive RefreshMode
  | Full
  | Fast
deriving DecidableEq

/-- `struct HealthState` (main.cpp:48). -/
structure HealthState where
  received : Bool
  ha : Bool
  gw : Bool
  inet : Bool
  ha_api : Bool
  ha_ms : Int
  gw_ms : Int
  inet_ms : Int
  mem : Int
  disk : Int
  msgs_24h : Int
  up : List Char
  model : List Char
deriving DecidableEq

/-- `struct KillswitchState` (main.cpp:56). -/
structure KillswitchState where
  received : Bool
  state : List Char
  address : List Char
  ws_connected : Bool
  isolated_at : List Char
  block_number : Int
deriving DecidableEq

/-- `struct GatewayHealth` (main.cpp:65). -/
structure GatewayHealth where
  received : Bool
  ha_errors : Int
  ha_reachable : Bool
deriving DecidableEq

/-- `struct NavState` (main.cpp:71). -/
structure NavState where
  screen : Screen
  last_transition : Nat
  last_sensor : Nat
  last_home_refresh : Nat
  fast_count : Nat
deriving DecidableEq

/-- The process-wide mutable globals of main.cpp lines 80-85 that the
decision layer reads and writes. -/
structure SysState where
  health : HealthState
  killswitch : KillswitchState
  gw_health : GatewayHealth
  ks_changed : Bool
  nav : NavState
deriving DecidableEq

-- ── Constants (main.cpp lines 36-39, 104-109) ─────────────────────

def DETAIL_TIMEOUT_MS : Nat := 25000
def HOME_REFRESH_MS : Nat := 60000
def FULL_REFRESH_EVERY : Nat := 5

def TOPIC_HEALTH : List Char := ("hiki/health").toList
def TOPIC_KILLSWITCH : List Char := ("hiki/killswitch/status").toList
def TOPIC_GW_HEALTH : List Char := ("hiki/gateway/health").toList

def keyHa : List Char := ("ha").toList
def keyGw : List Char := ("gw").toList
def keyInet : List Char := ("inet").toList
def keyHaApi : List Char := ("ha_api").toList
def keyHaMs : List Char := ("ha_ms").toList
def keyGwMs : List Char := ("gw_ms").toList
def keyInetMs : List Char := ("inet_ms").toList
def keyMem : List Char := ("mem").toList
def keyDisk : List Char := ("disk").toList
def keyMsgs24h : List Char := ("msgs_24h").toList
def keyUp : List Char := ("up").toList
def keyModel : List Char := ("model").toList
def keyState : List Char := ("state").toList
def keyAddress : List Char := ("address").toList
def keyWsConnected : List Char := ("ws_connected").toList
def keyIsolatedAt : List Char := ("isolated_at").toList
def keyBlockNumber : List Char := ("block_number").toList
def keyHaErrors : List Char := ("ha_errors").toList
def keyHaReachable : List Char := ("ha_reachable").toList

/-- The string `"isolated"` compared against `killswitch.state`. -/
def isolatedLit : List Char := ("isolated").toList

/-- The string `"unknown"` that `killswitch.state` is initialised to. -/
def unknownLit : List Char := ("unknown").toList

-- ── MQTT message ingestor (main.cpp lines 151-195) ────────────────

/-- The health-topic branch of `mqttCallback` (main.cpp:163-177): every
field of the sub-report is re-assigned from the payload. -/
def mergeHealth (h : HealthState) (buf : List Char) : HealthState :=
  { h with
      ha := jsonInt buf keyHa != 0
      gw := jsonInt buf keyGw != 0
      inet := jsonInt buf keyInet != 0
      ha_api := jsonInt buf keyHaApi != 0
      ha_ms := jsonInt buf keyHaMs
      gw_ms := jsonInt buf keyGwMs
      inet_ms := jsonInt buf keyInetMs
      mem := jsonInt buf keyMem
      disk := jsonInt buf keyDisk
      msgs_24h := jsonInt buf keyMsgs24h
      up := jsonStr buf keyUp 16
      model := jsonStr buf keyModel 24
      received := true }

/-- The killswitch-topic branch of `mqttCallback` (main.cpp:178-187). -/
def mergeKillswitch (k : KillswitchState) (buf : List Char) : KillswitchState :=
  { k with
      state := jsonStr buf keyState 16
      address := jsonStr buf keyAddress 64
      ws_connected := jsonBool buf keyWsConnected
      isolated_at := jsonStr buf keyIsolatedAt 24
      block_number := jsonInt buf keyBlockNumber
      received := true }

/-- The gateway-health-topic branch of `mqttCallback` (main.cpp:188-194). -/
def mergeGw (g : GatewayHealth) (buf : List Char) : GatewayHealth :=
  { g with
      ha_errors := jsonInt buf keyHaErrors
      ha_reachable := jsonBool buf keyHaReachable
      received := true }

/-- `mqttCallback` (main.cpp:151): drop payloads of 512 bytes or more,
then dispatch on the topic string; unknown topics are a no-op.  Only the
killswitch branch raises the `ks_changed` flag (main.cpp:185). -/
def mqttCallback (s : SysState) (topic payload : List Char) : SysState :=
  if payload.length ≥ 512 then s
  else if topic = TOPIC_HEALTH then
    { s with health := mergeHealth s.health payload }
  else if topic = TOPIC_KILLSWITCH then
    { s with killswitch := mergeKillswitch s.killswitch payload, ks_changed := true }
  else if topic = TOPIC_GW_HEALTH then
    { s with gw_health := mergeGw s.gw_health payload }
  else s

-- ── Navigation (main.cpp lines 323, 977-1026, 1144-1211) ──────────

/-- `isIsolated` (main.cpp:323): the derived isolation boolean, true
exactly when the killswitch state string equals `"isolated"`. -/
def isIsolated (k : KillswitchState) : Bool :=
  k.state == isolatedLit

/-- Entering isolation: destination `ISOLATED` from any screen outside
the pair of isolation screens (main.cpp:983). -/
def enteringIsolation (fr dst : Screen) : Prop :=
  dst = Screen.ISOLATED ∧ fr ≠ Screen.ISOLATED ∧ fr ≠ Screen.ISOLATED_HOME

/-- Leaving isolation: destination `HOME` from either isolation screen
(main.cpp:984). -/
def leavingIsolation (fr dst : Screen) : Prop :=
  dst = Screen.HOME ∧ (fr = Screen.ISOLATED ∨ fr = Screen.ISOLATED_HOME)

instance (fr dst : Screen) : Decidable (enteringIsolation fr dst) := by
  unfold enteringIsolation; infer_instance

instance (fr dst : Screen) : Decidable (leavingIsolation fr dst) := by
  unfold leavingIsolation; infer_instance

/-- `transitionTo` (main.cpp:977): decide the refresh mode from the
pre-increment `fast_count`, bump the counter, record the new screen and
timestamps.  Rendering and the display driver are outside the decision
layer; the pair returned is (new nav record, refresh mode used). -/
def transitionTo (nav : NavState) (now : Nat) (dst : Screen) : NavState × RefreshMode :=
  let fr := nav.screen
  let mode :=
    if enteringIsolation fr dst ∨ leavingIsolation fr dst ∨
        nav.fast_count % FULL_REFRESH_EVERY = 0
    then RefreshMode.Full else RefreshMode.Fast
  let nav1 : NavState :=
    { nav with
        screen := dst
        fast_count := nav.fast_count + 1
        last_transition := now
        last_home_refresh :=
          if dst = Screen.HOME ∨ dst = Screen.ISOLATED_HOME then now
          else nav.last_home_refresh }
  (nav1, mode)

/-- `cycle_normal` (main.cpp:1165). -/
def cycle_normal : List Screen :=
  [Screen.HOME, Screen.DETAIL_BREATH, Screen.DETAIL_NERVE]

/-- `cycle_isolated` (main.cpp:1167). -/
def cycle_isolated : List Screen :=
  [Screen.ISOLATED, Screen.ISOLATED_HOME, Screen.DETAIL_BREATH, Screen.DETAIL_NERVE]

/-- Index of the first occurrence of `cur` in the cycle array, as the
linear scan in `cycleNext`/`cyclePrev` finds it. -/
def findIdx : List Screen → Screen → Option Nat
  | [], _ => none
  | a :: rest, cur =>
      if a = cur then some 0 else (findIdx rest cur).map (· + 1)

/-- `cycleNext` (main.cpp:1170): wrapping successor in the cycle array;
the first array entry when the current screen is not in the array. -/
def cycleNext (arr : List Screen) (cur : Screen) : Screen :=
  match findIdx arr cur with
  | some i => arr.getD ((i + 1) % arr.length) Screen.HOME
  | none => arr.getD 0 Screen.HOME

/-- `cyclePrev` (main.cpp:1175): wrapping predecessor in the cycle array. -/
def cyclePrev (arr : List Screen) (cur : Screen) : Screen :=
  match findIdx arr cur with
  | some i => arr.getD ((i + arr.length - 1) % arr.length) Screen.HOME
  | none => arr.getD 0 Screen.HOME

/-- 2^32, the modulus of `unsigned long` arithmetic on the target. -/
def U32 : Nat := 4294967296

/-- Wrapping `unsigned long` subtraction `a - b`, as computed by
`now - nav.last_transition` in the loop. -/
def usub32 (a b : Nat) : Nat :=
  (a % U32 + (U32 - b % U32)) % U32

/-- The button/timeout portion of `loop` (main.cpp:1160-1211): pick the
cycle for the current isolation status, then button-next wins over
button-previous wins over the per-screen auto-behaviour. -/
def loopNavCycle (s : SysState) (isolated : Bool) (btn_up btn_down : Bool)
    (now : Nat) : SysState :=
  let cycle := if isolated = true then cycle_isolated else cycle_normal
  let elapsed := usub32 now s.nav.last_transition
  if btn_up = true then
    { s with nav := (transitionTo s.nav now (cycleNext cycle s.nav.screen)).1 }
  else if btn_down = true then
    { s with nav := (transitionTo s.nav now (cyclePrev cycle s.nav.screen)).1 }
  else
    match s.nav.screen with
    | Screen.HOME =>
        if usub32 now s.nav.last_home_refresh ≥ HOME_REFRESH_MS then
          { s with nav := (transitionTo s.nav now Screen.HOME).1 }
        else s
    | Screen.DETAIL_BREATH =>
        if elapsed ≥ DETAIL_TIMEOUT_MS then
          { s with nav :=
              (transitionTo s.nav now
                (if isolated = true then Screen.ISOLATED else Screen.HOME)).1 }
        else s
    | Screen.DETAIL_NERVE =>
        if elapsed ≥ DETAIL_TIMEOUT_MS then
          { s with nav :=
              (transitionTo s.nav now
                (if isolated = true then Screen.ISOLATED else Screen.HOME)).1 }
        else s
    | Screen.ISOLATED => s
    | Screen.ISOLATED_HOME => s

/-- The navigation decision portion of `loop` (main.cpp:1144-1211),
entered once per tick after the transport has been drained (modelled by
prior `mqttCallback` applications) and the buttons debounced (modelled
by the two booleans).  The killswitch-change handling of lines
1148-1158 clears the flag, then the forced isolation-edge transitions
return early, pre-empting buttons and timeouts. -/
def loopNav (s : SysState) (btn_up btn_down : Bool) (now : Nat) : SysState :=
  let isolated := isIsolated s.killswitch
  if s.ks_changed = true then
    let s1 : SysState := { s with ks_changed := false }
    if isolated = true ∧ s1.nav.screen ≠ Screen.ISOLATED ∧
        s1.nav.screen ≠ Screen.ISOLATED_HOME then
      { s1 with nav := (transitionTo s1.nav now Screen.ISOLATED).1 }
    else if isolated = false ∧ (s1.nav.screen = Screen.ISOLATED ∨
        s1.nav.screen = Screen.ISOLATED_HOME) then
      { s1 with nav := (transitionTo s1.nav now Screen.HOME).1 }
    else
      loopNavCycle s1 isolated btn_up btn_down now
  else
    loopNavCycle s isolated btn_up btn_down now

-- ── Boot-time initial values (main.cpp lines 43-85) ───────────────

def initHealth : HealthState :=
  { received := false, ha := false, gw := false, inet := false, ha_api := false
    ha_ms := 0, gw_ms := 0, inet_ms := 0, mem := 0, disk := 0, msgs_24h := 0
    up := [], model := [] }

def initKillswitch : KillswitchState :=
  { received := false, state := unknownLit, address := []
    ws_connected := false, isolated_at := [], block_number := 0 }

def initGw : GatewayHealth :=
  { received := false, ha_errors := 0, ha_reachable := false }

def initNav : NavState :=
  { screen := Screen.HOME, last_transition := 0, last_sensor := 0
    last_home_refresh := 0, fast_count := 0 }

def initSys : SysState :=
  { health := initHealth, killswitch := initKillswitch, gw_health := initGw
    ks_changed := false, nav := initNav }

-- ── Concrete fixtures for witnesses and counterexamples ───────────

/-- A 513-byte payload, above the ingestor's size cap. -/
def oversizePayload : List Char := List.replicate 513 'a'

/-- A health payload supplying only the `ha` flag. -/
def payloadHaOnly : List Char := ("\"ha\":1").toList

/-- A health payload with a non-numeric `mem` value and an `up` string
whose closing quote is missing. -/
def payloadMalformed : List Char := ("\"mem\":x,\"up\":\"3d").toList

/-- The suffix of `payloadMalformed` at which `strstr` finds `"up":`. -/
def pUpSuffix : List Char := ("\"up\":\"3d").toList

/-- What follows the opening quote of the `up` value in
`payloadMalformed`: no closing quote ever appears. -/
def qUpTail : List Char := ("3d").toList

/-- A killswitch payload announcing the isolated state. -/
def payloadKsIsolated : List Char := ("\"state\":\"isolated\"").toList

/-- A health sub-report that has already been populated: uptime `3d`,
120 MB free. -/
def healthPrev : HealthState :=
  { initHealth with received := true, up := ("3d").toList, mem := 120 }

def sysPrev : SysState := { initSys with health := healthPrev }

/-- A state in which all three sub-reports have been received. -/
def sysAllReceived : SysState :=
  { initSys with
      health := { initHealth with received := true }
      killswitch := { initKillswitch with received := true }
      gw_health := { initGw with received := true } }

/-- Not isolated, currently dwelling on the network detail screen. -/
def sysDetail : SysState :=
  { initSys with nav := { initNav with screen := Screen.DETAIL_NERVE } }

/-- Isolated, but the user has manually navigated to the network detail
screen. -/
def sysIsoDetail : SysState :=
  { initSys with
      killswitch := { initKillswitch with received := true, state := isolatedLit }
      nav := { initNav with screen := Screen.DETAIL_NERVE } }

-- ── Helper lemmas ─────────────────────────────────────────────────

/-- The nav record returned by `transitionTo` shows the destination. -/
theorem transitionTo_screen (nav : NavState) (now : Nat) (dst : Screen) :
    ((transitionTo nav now dst).1).screen = dst := rfl

/-- Wrapping `unsigned long` subtraction agrees with `Nat` subtraction
when no wraparound occurs. -/
theorem usub32_eq (a b : Nat) (hba : b ≤ a) (ha : a < U32) :
    usub32 a b = a - b := by
  unfold usub32 U32
  have h1 : a % 4294967296 = a := Nat.mod_eq_of_lt (by unfold U32 at ha; omega)
  have h2 : b % 4294967296 = b := Nat.mod_eq_of_lt (by unfold U32 at ha; omega)
  rw [h1, h2]
  have h3 : a + (4294967296 - b) = 4294967296 + (a - b) := by
    unfold U32 at ha; omega
  rw [h3, Nat.add_mod_left]
  exact Nat.mod_eq_of_lt (by unfold U32 at ha; omega)

/-- A killswitch-topic message merges the sub-report and raises the
change flag. -/
theorem mqttCallback_killswitch (s : SysState) (payload : List Char)
    (hlen : payload.length < 512) :
    mqttCallback s TOPIC_KILLSWITCH payload =
      { s with killswitch := mergeKillswitch s.killswitch payload
               ks_changed := true } := by
  unfold mqttCallback
  rw [if_neg (by omega), if_neg (by decide), if_pos rfl]

/-- With the change flag up, isolation on, and the screen outside the
two isolation screens, the tick force-transitions to `ISOLATED`. -/
theorem loopNav_edge_to_isolated (s : SysState) (bu bd : Bool) (now : Nat)
    (hks : s.ks_changed = true) (hiso : isIsolated s.killswitch = true)
    (h1 : s.nav.screen ≠ Screen.ISOLATED)
    (h2 : s.nav.screen ≠ Screen.ISOLATED_HOME) :
    loopNav s bu bd now =
      { s with ks_changed := false
               nav := (transitionTo s.nav now Screen.ISOLATED).1 } := by
  simp only [loopNav]
  rw [if_pos hks, if_pos ⟨hiso, h1, h2⟩]

/-- With the change flag down, the tick reduces to the button/timeout
logic. -/
theorem loopNav_no_edge (s : SysState) (bu bd : Bool) (now : Nat)
    (hks : s.ks_changed = false) :
    loopNav s bu bd now = loopNavCycle s (isIsolated s.killswitch) bu bd now := by
  simp only [loopNav]
  rw [if_neg (by simp [hks])]

/-- A button-next tick advances along the applicable cycle. -/
theorem loopNavCycle_btn_up (s : SysState) (isolated bd : Bool) (now : Nat) :
    loopNavCycle s isolated true bd now =
      { s with nav := (transitionTo s.nav now
          (cycleNext (if isolated = true then cycle_isolated else cycle_normal)
            s.nav.screen)).1 } := by
  simp only [loopNavCycle]
  simp

/-- A detail screen at or past the dwell timeout auto-returns. -/
theorem loopNavCycle_detail_timeout (s : SysState) (isolated : Bool) (now : Nat)
    (hd : s.nav.screen = Screen.DETAIL_BREATH ∨ s.nav.screen = Screen.DETAIL_NERVE)
    (ht : usub32 now s.nav.last_transition ≥ DETAIL_TIMEOUT_MS) :
    loopNavCycle s isolated false false now =
      { s with nav := (transitionTo s.nav now
          (if isolated = true then Screen.ISOLATED else Screen.HOME)).1 } := by
  simp only [loopNavCycle]
  rw [if_neg (by simp), if_neg (by simp)]
  rcases hd with hd | hd <;> rw [hd] <;> rw [if_pos ht]

/-- A detail screen below the dwell timeout is left alone. -/
theorem loopNavCycle_detail_under (s : SysState) (isolated : Bool) (now : Nat)
    (hd : s.nav.screen = Screen.DETAIL_BREATH ∨ s.nav.screen = Screen.DETAIL_NERVE)
    (ht : usub32 now s.nav.last_transition < DETAIL_TIMEOUT_MS) :
    loopNavCycle s isolated false false now = s := by
  simp only [loopNavCycle]
  rw [if_neg (by simp), if_neg (by simp)]
  rcases hd with hd | hd <;> rw [hd] <;>
    rw [if_neg (show ¬ usub32 now s.nav.last_transition ≥ DETAIL_TIMEOUT_MS by omega)]

/-- The isolation screens have no timeout: without a button they stay. -/
theorem loopNavCycle_isolation_screens (s : SysState) (isolated : Bool) (now : Nat)
    (hd : s.nav.screen = Screen.ISOLATED ∨ s.nav.screen = Screen.ISOLATED_HOME) :
    loopNavCycle s isolated false false now = s := by
  simp only [loopNavCycle]
  rw [if_neg (by simp), if_neg (by simp)]
  rcases hd with hd | hd <;> rw [hd]

-- ── Claim C1 ──────────────────────────────────────────────────────

/-- Claim C1 counterexample: merging a health payload containing only
`"ha":1` into a state whose uptime is `3d` and whose free memory is 120
does NOT leave those fields at their pre-merge values — both are reset
to their defaults — refuting the claim that keys absent from the
payload leave their fields untouched. -/
theorem C1_counterexample :
    (mqttCallback sysPrev TOPIC_HEALTH payloadHaOnly).health.ha = true ∧
    (mqttCallback sysPrev TOPIC_HEALTH payloadHaOnly).health.up ≠ sysPrev.health.up ∧
    (mqttCallback sysPrev TOPIC_HEALTH payloadHaOnly).health.mem ≠ sysPrev.health.mem := by
  decide

/-- Claim C1 (amended): merging an accepted health message re-extracts
every key; a field whose key is absent from the payload is reset to the
extractor's default (0 for integers, the empty string for strings) on
every merge, not left at its pre-merge value. -/
theorem C1_absent_fields_reset (s : SysState) (payload : List Char)
    (hlen : payload.length < 512)
    (hmem : strstr (searchKey keyMem) payload = none)
    (hup : strstr (searchKey keyUp) payload = none) :
    (mqttCallback s TOPIC_HEALTH payload).health.mem = 0 ∧
    (mqttCallback s TOPIC_HEALTH payload).health.up = [] := by
  unfold mqttCallback
  rw [if_neg (by omega), if_pos rfl]
  constructor
  · show jsonInt payload keyMem = 0
    unfold jsonInt
    rw [hmem]
  · show jsonStr payload keyUp 16 = []
    unfold jsonStr
    rw [hup]

/-- Witness for C1 (amended) at the payload `"ha":1`. -/
theorem C1_absent_fields_reset_witness :
    (payloadHaOnly.length < 512 ∧
     strstr (searchKey keyMem) payloadHaOnly = none ∧
     strstr (searchKey keyUp) payloadHaOnly = none) ∧
    ((mqttCallback sysPrev TOPIC_HEALTH payloadHaOnly).health.mem = 0 ∧
     (mqttCallback sysPrev TOPIC_HEALTH payloadHaOnly).health.up = []) :=
  ⟨by decide,
   C1_absent_fields_reset sysPrev payloadHaOnly (by decide) (by decide) (by decide)⟩

-- ── Claim C4 ──────────────────────────────────────────────────────

/-- Claim C4 counterexample: a payload with a non-numeric `mem` value
and an `up` string missing its closing quote does NOT keep the previous
values of those fields — `mem` becomes 0 and `up` becomes empty —
refuting the claim that a malformed field keeps its previous value. -/
theorem C4_counterexample :
    (mqttCallback sysPrev TOPIC_HEALTH payloadMalformed).health.mem ≠ sysPrev.health.mem ∧
    (mqttCallback sysPrev TOPIC_HEALTH payloadMalformed).health.up ≠ sysPrev.health.up := by
  decide

/-- Claim C4 (amended): a malformed field value is never fatal to the
message — the merge still completes, `received` is still set, and every
other field is still extracted from the same payload independently —
but the offending field is reset to the extractor's default (here: a
string value whose closing quote never arrives yields the empty
string), not kept at its previous value. -/
theorem C4_malformed_field_soft (s : SysState) (payload p q : List Char)
    (hlen : payload.length < 512)
    (hfind : strstr (searchKey keyUp) payload = some p)
    (hq : (p.drop (searchKey keyUp).length).dropWhile (fun c => c == ' ') = '"' :: q)
    (hnoq : q.any (fun c => c == '"') = false) :
    (mqttCallback s TOPIC_HEALTH payload).health.up = [] ∧
    (mqttCallback s TOPIC_HEALTH payload).health.mem = jsonInt payload keyMem ∧
    (mqttCallback s TOPIC_HEALTH payload).health.received = true := by
  unfold mqttCallback
  rw [if_neg (by omega), if_pos rfl]
  refine ⟨?_, rfl, rfl⟩
  show jsonStr payload keyUp 16 = []
  unfold jsonStr
  simp only [hfind]
  simp only [hq]
  rw [if_neg (by simp [hnoq])]

/-- Witness for C4 (amended) at the payload `"mem":x,"up":"3d`. -/
theorem C4_malformed_field_soft_witness :
    (payloadMalformed.length < 512 ∧
     strstr (searchKey keyUp) payloadMalformed = some pUpSuffix ∧
     (pUpSuffix.drop (searchKey keyUp).length).dropWhile (fun c => c == ' ') =
       '"' :: qUpTail ∧
     qUpTail.any (fun c => c == '"') = false) ∧
    ((mqttCallback sysPrev TOPIC_HEALTH payloadMalformed).health.up = [] ∧
     (mqttCallback sysPrev TOPIC_HEALTH payloadMalformed).health.mem =
       jsonInt payloadMalformed keyMem ∧
     (mqttCallback sysPrev TOPIC_HEALTH payloadMalformed).health.received = true) :=
  ⟨by decide,
   C4_malformed_field_soft sysPrev payloadMalformed pUpSuffix qUpTail
     (by decide) (by decide) (by decide) (by decide)⟩

-- ── Claim C5 ──────────────────────────────────────────────────────

/-- Claim C5 counterexample: a successful merge of a health-topic
message (it sets `received`) does NOT raise the process-wide change
flag — the flag is raised only by the killswitch topic — refuting the
claim that every successful merge on any of the three topics raises it. -/
theorem C5_counterexample :
    (mqttCallback initSys TOPIC_HEALTH payloadHaOnly).health.received = true ∧
    (mqttCallback initSys TOPIC_HEALTH payloadHaOnly).ks_changed = false := by
  decide

/-- Claim C5 (amended): the single process-wide change flag is raised
by every accepted killswitch-topic merge, and by nothing else — health
and gateway-health merges leave it unchanged. -/
theorem C5_flag_killswitch_only (s : SysState) (payload : List Char)
    (hlen : payload.length < 512) :
    (mqttCallback s TOPIC_KILLSWITCH payload).ks_changed = true ∧
    (mqttCallback s TOPIC_HEALTH payload).ks_changed = s.ks_changed ∧
    (mqttCallback s TOPIC_GW_HEALTH payload).ks_changed = s.ks_changed := by
  refine ⟨?_, ?_, ?_⟩
  · unfold mqttCallback
    rw [if_neg (by omega), if_neg (by decide), if_pos rfl]
  · unfold mqttCallback
    rw [if_neg (by omega), if_pos rfl]
  · unfold mqttCallback
    rw [if_neg (by omega), if_neg (by decide), if_neg (by decide), if_pos rfl]

/-- Witness for C5 (amended) at the payload `"ha":1`. -/
theorem C5_flag_killswitch_only_witness :
    payloadHaOnly.length < 512 ∧
    (mqttCallback initSys TOPIC_KILLSWITCH payloadHaOnly).ks_changed = true :=
  ⟨by decide, (C5_flag_killswitch_only initSys payloadHaOnly (by decide)).1⟩

-- ── Claim C6 ──────────────────────────────────────────────────────

/-- Claim C6: a payload longer than the 512-byte cap is rejected
outright: no field of any sub-report changes, no `received` flag
changes, and no partial parsing happens — the whole state is returned
untouched. -/
theorem C6_oversize_rejected (s : SysState) (topic payload : List Char)
    (h : payload.length > 512) :
    mqttCallback s topic payload = s := by
  unfold mqttCallback
  rw [if_pos (by omega)]

set_option maxRecDepth 8192 in
/-- Witness for C6 at a 513-byte payload. -/
theorem C6_oversize_rejected_witness :
    oversizePayload.length > 512 ∧
    mqttCallback sysPrev TOPIC_HEALTH oversizePayload = sysPrev :=
  ⟨by decide, C6_oversize_rejected sysPrev TOPIC_HEALTH oversizePayload (by decide)⟩

-- ── Claim C7 ──────────────────────────────────────────────────────

/-- Claim C7: each sub-report's `received` flag is monotone — once
true, no ingest operation (any topic, any payload, malformed or not)
ever resets it to false. -/
theorem C7_received_monotone (s : SysState) (topic payload : List Char) :
    (s.health.received = true → (mqttCallback s topic payload).health.received = true) ∧
    (s.killswitch.received = true →
      (mqttCallback s topic payload).killswitch.received = true) ∧
    (s.gw_health.received = true →
      (mqttCallback s topic payload).gw_health.received = true) := by
  unfold mqttCallback mergeHealth mergeKillswitch mergeGw
  split_ifs <;> simp_all

/-- Witness for C7: a state with all three flags set keeps them set
across a malformed health merge. -/
theorem C7_received_monotone_witness :
    sysAllReceived.health.received = true ∧
    (mqttCallback sysAllReceived TOPIC_HEALTH payloadMalformed).health.received = true :=
  ⟨by decide,
   (C7_received_monotone sysAllReceived TOPIC_HEALTH payloadMalformed).1 (by decide)⟩

-- ── Claim C2 ──────────────────────────────────────────────────────

/-- Claim C2: when the killswitch-derived isolation boolean has just
flipped true (a killswitch message turned a non-isolated state into an
isolated one) while the screen is outside the isolation pair, the very
next tick transitions to `ISOLATED` — whatever the buttons report and
however little dwell time has elapsed. -/
theorem C2_isolation_edge_preempts (s : SysState) (payload : List Char)
    (bu bd : Bool) (now : Nat)
    (hlen : payload.length < 512)
    (_hbefore : isIsolated s.killswitch = false)
    (hafter : isIsolated (mergeKillswitch s.killswitch payload) = true)
    (h1 : s.nav.screen ≠ Screen.ISOLATED)
    (h2 : s.nav.screen ≠ Screen.ISOLATED_HOME) :
    (loopNav (mqttCallback s TOPIC_KILLSWITCH payload) bu bd now).nav.screen =
      Screen.ISOLATED := by
  rw [mqttCallback_killswitch s payload hlen]
  rw [loopNav_edge_to_isolated
    { s with killswitch := mergeKillswitch s.killswitch payload, ks_changed := true }
    bu bd now rfl hafter h1 h2]
  rfl

/-- Witness for C2: from `HOME`, not isolated, a killswitch message
announcing isolation forces `ISOLATED` on the next tick even with a
button held. -/
theorem C2_isolation_edge_preempts_witness :
    (payloadKsIsolated.length < 512 ∧
     isIsolated initSys.killswitch = false ∧
     isIsolated (mergeKillswitch initSys.killswitch payloadKsIsolated) = true ∧
     initSys.nav.screen ≠ Screen.ISOLATED ∧
     initSys.nav.screen ≠ Screen.ISOLATED_HOME) ∧
    (loopNav (mqttCallback initSys TOPIC_KILLSWITCH payloadKsIsolated)
        true false 1000).nav.screen = Screen.ISOLATED :=
  ⟨by decide,
   C2_isolation_edge_preempts initSys payloadKsIsolated true false 1000
     (by decide) (by decide) (by decide) (by decide) (by decide)⟩

-- ── Claim C3 ──────────────────────────────────────────────────────

/-- The refresh decision of `transitionTo`, characterised by the
disjunction the source computes (main.cpp:983-985). -/
theorem transitionTo_mode_iff (nav : NavState) (now : Nat) (dst : Screen) :
    ((transitionTo nav now dst).2 = RefreshMode.Full ↔
      (enteringIsolation nav.screen dst ∨ leavingIsolation nav.screen dst ∨
       nav.fast_count % FULL_REFRESH_EVERY = 0)) := by
  have h : (transitionTo nav now dst).2 =
      (if enteringIsolation nav.screen dst ∨ leavingIsolation nav.screen dst ∨
          nav.fast_count % FULL_REFRESH_EVERY = 0
       then RefreshMode.Full else RefreshMode.Fast) := rfl
  rw [h]
  split_ifs with hc
  · simp [hc]
  · simp [hc]

/-- Claim C3: an accepted transition refreshes `Full` exactly when it
enters `ISOLATED` from outside the isolation pair, or leaves isolation
to `HOME`, or the pre-transition counter is divisible by
`FULL_REFRESH_EVERY` (5) — otherwise `Fast`; in particular
`HOME → ISOLATED` always refreshes `Full`. -/
theorem C3_refresh_mode (nav : NavState) (now : Nat) (dst : Screen) :
    ((transitionTo nav now dst).2 = RefreshMode.Full ↔
      (enteringIsolation nav.screen dst ∨ leavingIsolation nav.screen dst ∨
       nav.fast_count % FULL_REFRESH_EVERY = 0)) ∧
    (transitionTo { nav with screen := Screen.HOME } now Screen.ISOLATED).2 =
      RefreshMode.Full := by
  refine ⟨transitionTo_mode_iff nav now dst, ?_⟩
  rw [transitionTo_mode_iff]
  exact Or.inl ⟨rfl, by simp, by simp⟩

-- ── Claim C8 ──────────────────────────────────────────────────────

/-- Claim C8: with no buttons and no isolation edge, a detail screen
auto-returns once 25 s have elapsed since the last transition — to
`ISOLATED` when isolated, else `HOME` — and not before; the isolation
screens never transition by timeout. -/
theorem C8_timeout_policy (s : SysState) (now : Nat)
    (hks : s.ks_changed = false)
    (hle : s.nav.last_transition ≤ now) (hnow : now < U32) :
    ((s.nav.screen = Screen.DETAIL_BREATH ∨ s.nav.screen = Screen.DETAIL_NERVE) →
      now - s.nav.last_transition ≥ DETAIL_TIMEOUT_MS →
      (loopNav s false false now).nav.screen =
        (if isIsolated s.killswitch = true then Screen.ISOLATED else Screen.HOME)) ∧
    ((s.nav.screen = Screen.DETAIL_BREATH ∨ s.nav.screen = Screen.DETAIL_NERVE) →
      now - s.nav.last_transition < DETAIL_TIMEOUT_MS →
      loopNav s false false now = s) ∧
    ((s.nav.screen = Screen.ISOLATED ∨ s.nav.screen = Screen.ISOLATED_HOME) →
      loopNav s false false now = s) := by
  have hu : usub32 now s.nav.last_transition = now - s.nav.last_transition :=
    usub32_eq now s.nav.last_transition hle hnow
  refine ⟨?_, ?_, ?_⟩
  · intro hd ht
    rw [loopNav_no_edge s false false now hks,
        loopNavCycle_detail_timeout s _ now hd (by rw [hu]; exact ht)]
    rfl
  · intro hd ht
    rw [loopNav_no_edge s false false now hks]
    exact loopNavCycle_detail_under s _ now hd (by rw [hu]; omega)
  · intro hd
    rw [loopNav_no_edge s false false now hks]
    exact loopNavCycle_isolation_screens s _ now hd

/-- Witness for C8: on `DETAIL_NERVE`, not isolated, 30 s after the
last transition, the tick returns to `HOME`. -/
theorem C8_timeout_policy_witness :
    (sysDetail.ks_changed = false ∧ sysDetail.nav.last_transition ≤ 30000 ∧
     (30000 : Nat) < U32 ∧
     (sysDetail.nav.screen = Screen.DETAIL_BREATH ∨
      sysDetail.nav.screen = Screen.DETAIL_NERVE) ∧
     30000 - sysDetail.nav.last_transition ≥ DETAIL_TIMEOUT_MS) ∧
    (loopNav sysDetail false false 30000).nav.screen =
      (if isIsolated sysDetail.killswitch = true then Screen.ISOLATED else Screen.HOME) :=
  ⟨by decide,
   (C8_timeout_policy sysDetail 30000 (by decide) (by decide) (by decide)).1
     (by decide) (by decide)⟩

-- ── Claim C9 ──────────────────────────────────────────────────────

/-- Projection fact: replacing only the nav record changes only it. -/
theorem nav_update_screen (s : SysState) (n : NavState) :
    ({ s with nav := n } : SysState).nav.screen = n.screen := rfl

/-- A button-next tick on the normal cycle (flag down, not isolated). -/
theorem loopNav_btn_next_normal (s : SysState) (bd : Bool) (now : Nat)
    (hks : s.ks_changed = false) (hiso : isIsolated s.killswitch = false) :
    loopNav s true bd now =
      { s with nav :=
          (transitionTo s.nav now (cycleNext cycle_normal s.nav.screen)).1 } := by
  rw [loopNav_no_edge s true bd now hks, loopNavCycle_btn_up, hiso]
  simp

/-- Claim C9: while not isolated, from `HOME` three consecutive
button-next ticks visit `DETAIL_BREATH`, then `DETAIL_NERVE`, then
return to `HOME` — the wrapping successor's third iterate from `HOME`
is the identity. -/
theorem C9_cycle_wraparound (s : SysState) (bd : Bool) (n1 n2 n3 : Nat)
    (hks : s.ks_changed = false)
    (hiso : isIsolated s.killswitch = false)
    (hscreen : s.nav.screen = Screen.HOME) :
    (loopNav s true bd n1).nav.screen = Screen.DETAIL_BREATH ∧
    (loopNav (loopNav s true bd n1) true bd n2).nav.screen = Screen.DETAIL_NERVE ∧
    (loopNav (loopNav (loopNav s true bd n1) true bd n2) true bd n3).nav.screen =
      Screen.HOME := by
  have hn1 : cycleNext cycle_normal Screen.HOME = Screen.DETAIL_BREATH := by decide
  have hn2 : cycleNext cycle_normal Screen.DETAIL_BREATH = Screen.DETAIL_NERVE := by decide
  have hn3 : cycleNext cycle_normal Screen.DETAIL_NERVE = Screen.HOME := by decide
  have e1 := loopNav_btn_next_normal s bd n1 hks hiso
  have hs1 : (loopNav s true bd n1).nav.screen = Screen.DETAIL_BREATH := by
    rw [e1, nav_update_screen, transitionTo_screen, hscreen, hn1]
  have hks1 : (loopNav s true bd n1).ks_changed = false := by
    rw [e1]; exact hks
  have hiso1 : isIsolated (loopNav s true bd n1).killswitch = false := by
    rw [e1]; exact hiso
  have e2 := loopNav_btn_next_normal (loopNav s true bd n1) bd n2 hks1 hiso1
  have hs2 : (loopNav (loopNav s true bd n1) true bd n2).nav.screen =
      Screen.DETAIL_NERVE := by
    rw [e2, nav_update_screen, transitionTo_screen, hs1, hn2]
  have hks2 : (loopNav (loopNav s true bd n1) true bd n2).ks_changed = false := by
    rw [e2]; exact hks1
  have hiso2 : isIsolated (loopNav (loopNav s true bd n1) true bd n2).killswitch =
      false := by
    rw [e2]; exact hiso1
  have e3 := loopNav_btn_next_normal (loopNav (loopNav s true bd n1) true bd n2)
    bd n3 hks2 hiso2
  have hs3 : (loopNav (loopNav (loopNav s true bd n1) true bd n2) true bd n3).nav.screen =
      Screen.HOME := by
    rw [e3, nav_update_screen, transitionTo_screen, hs2, hn3]
  exact ⟨hs1, hs2, hs3⟩

/-- Witness for C9 from the boot state. -/
theorem C9_cycle_wraparound_witness :
    (initSys.ks_changed = false ∧ isIsolated initSys.killswitch = false ∧
     initSys.nav.screen = Screen.HOME) ∧
    ((loopNav initSys true false 100).nav.screen = Screen.DETAIL_BREATH ∧
     (loopNav (loopNav initSys true false 100) true false 200).nav.screen =
       Screen.DETAIL_NERVE ∧
     (loopNav (loopNav (loopNav initSys true false 100) true false 200)
         true false 300).nav.screen = Screen.HOME) :=
  ⟨by decide,
   C9_cycle_wraparound initSys false 100 200 300 (by decide) (by decide) (by decide)⟩

-- ── Claim C10 ─────────────────────────────────────────────────────

/-- Claim C10: every killswitch message sets the change flag, even a
repeat whose parsed state equals the current one; so when the device is
already isolated and the user has navigated to a detail screen, the
first tick after any killswitch message forces the screen back to
`ISOLATED` although no isolation flip occurred. -/
theorem C10_repeat_killswitch_forces_return (s : SysState) (payload : List Char)
    (bu bd : Bool) (now : Nat)
    (hlen : payload.length < 512)
    (_hbefore : isIsolated s.killswitch = true)
    (hafter : isIsolated (mergeKillswitch s.killswitch payload) = true)
    (hscreen : s.nav.screen = Screen.DETAIL_BREATH ∨
      s.nav.screen = Screen.DETAIL_NERVE) :
    (mqttCallback s TOPIC_KILLSWITCH payload).ks_changed = true ∧
    (loopNav (mqttCallback s TOPIC_KILLSWITCH payload) bu bd now).nav.screen =
      Screen.ISOLATED := by
  rw [mqttCallback_killswitch s payload hlen]
  have h1 : s.nav.screen ≠ Screen.ISOLATED := by
    rcases hscreen with h | h <;> rw [h] <;> decide
  have h2 : s.nav.screen ≠ Screen.ISOLATED_HOME := by
    rcases hscreen with h | h <;> rw [h] <;> decide
  refine ⟨rfl, ?_⟩
  rw [loopNav_edge_to_isolated
    { s with killswitch := mergeKillswitch s.killswitch payload, ks_changed := true }
    bu bd now rfl hafter h1 h2]
  rfl

/-- Witness for C10: already isolated, dwelling on `DETAIL_NERVE`, a
repeated `"isolated"` killswitch message snaps back to `ISOLATED`. -/
theorem C10_repeat_killswitch_forces_return_witness :
    (payloadKsIsolated.length < 512 ∧
     isIsolated sysIsoDetail.killswitch = true ∧
     isIsolated (mergeKillswitch sysIsoDetail.killswitch payloadKsIsolated) = true ∧
     (sysIsoDetail.nav.screen = Screen.DETAIL_BREATH ∨
      sysIsoDetail.nav.screen = Screen.DETAIL_NERVE)) ∧
    ((mqttCallback sysIsoDetail TOPIC_KILLSWITCH payloadKsIsolated).ks_changed = true ∧
     (loopNav (mqttCallback sysIsoDetail TOPIC_KILLSWITCH payloadKsIsolated)
         false false 500).nav.screen = Screen.ISOLATED) :=
  ⟨by decide,
   C10_repeat_killswitch_forces_return sysIsoDetail payloadKsIsolated false false 500
     (by decide) (by decide) (by decide) (by decide)⟩
